import Mathlib

/-!
Shallow embedding of the S3 bucket-analysis core of this repository
(file `s3_analysis.py`, class `S3Analyzer`): the size-categorization
function `_get_size_category`, the paginated scan `get_bucket_metrics`,
and the cached entry point `analyze_bucket`, together with proofs of the
specification's properties about them.

Modelling conventions:
- Python dicts used as counters keyed by strings are association lists
  `List (String × Nat)` with the update `dict.get(k, 0) + 1` embedded as
  `incr`; insertion order (first occurrence of a key) is preserved, as in
  Python dicts.
- Python floats are modelled by `ℚ`.  The only divisions performed are by
  `1024 * 1024 = 2 ^ 20` (exact in binary floating point for any byte
  count a listing can return) and one final division for the average, so
  the rational model agrees with the float computation everywhere the
  theorems below look.
- The boto3 paginator is modelled as a backend function returning either
  the full (finite) list of pages or an error; any `ClientError` or other
  exception raised during pagination aborts the whole `try` block of
  `get_bucket_metrics` and discards all partial state, which is exactly
  the `Except.error` branch here.
- `analyze_bucket` mutates `self.cache`; the embedding threads the cache
  explicitly and additionally reports how many times the backend listing
  (the paginator) was invoked during the call, which is the observable the
  caching claims are about.
-/

/-- One object descriptor as it appears in a `list_objects_v2` page:
`Key`, `Size`, optional `StorageClass` (absent means the code defaults it
to `"STANDARD"`), optional `LastModified`.  The payload type of
`lastModified` is irrelevant to the program's behaviour (see
`lastModifiedStr`), so it is modelled as an opaque `Nat`. -/
structure S3Object where
  key : String
  size : Nat
  storageClass : Option String
  lastModified : Option Nat
deriving DecidableEq

/-- One page returned by the paginator; `contents = none` models a page
with no `'Contents'` key. -/
structure Page where
  contents : Option (List S3Object)
deriving DecidableEq

/-- One entry of the `objects_list` built by `get_bucket_metrics`
(the dict with keys `'Key'`, `'Size (MB)'`, `'Last Modified'`,
`'Storage Class'`). -/
structure ObjectRecord where
  key : String
  size_MB : ℚ
  last_modified : String
  storage_class : String
deriving DecidableEq

/-- `d.get(k, 0) + 1` stored back under `k`: bump a counter dict,
appending the key at the end when it is new (Python dict insertion
order). -/
def incr (d : List (String × Nat)) (k : String) : List (String × Nat) :=
  match d with
  | [] => [(k, 1)]
  | (k₀, v) :: rest => if k₀ = k then (k₀, v + 1) :: rest else (k₀, v) :: incr rest k

/-- `sum(d.values())` for a counter dict. -/
def sumValues (d : List (String × Nat)) : Nat :=
  (d.map Prod.snd).sum

/-- `S3Analyzer._get_size_category(size_mb)` (s3_analysis.py lines
110-119): four ordered bins over the size in MB, first match wins. -/
def _get_size_category (size_mb : ℚ) : String :=
  if size_mb < 1 then "Small (<1MB)"
  else if size_mb < 10 then "Medium (1-10MB)"
  else if size_mb < 100 then "Large (10-100MB)"
  else "Very Large (>100MB)"

/-- `size_bytes / (1024 * 1024)` (line 160); exact, see the module
comment. -/
def bytesToMB (size_bytes : Nat) : ℚ :=
  (size_bytes : ℚ) / (1024 * 1024)

/-- The categorization applied to a raw byte count, as the scan does:
`self._get_size_category(size_bytes / (1024 * 1024))`. -/
def categorize (size_bytes : Nat) : String :=
  _get_size_category (bytesToMB size_bytes)

/-- The `last_modified_str` computation (lines 169-181).  The module never
imports the name `datetime`, so when `'LastModified'` is present the
`isinstance(obj['LastModified'], datetime)` test raises `NameError`, which
the `except Exception` handler catches after logging a warning; when it is
absent the initial value stands.  Either way the result is `"N/A"`. -/
def lastModifiedStr (lm : Option Nat) : String :=
  match lm with
  | none => "N/A"
  | some _ => "N/A"

/-- Python `round(x, 2)`: round-half-to-even at two decimal places
(the float arguments rounded by the code are exact rationals wherever the
theorems below inspect them). -/
def round2 (q : ℚ) : ℚ :=
  let scaled := q * 100
  let f : ℤ := ⌊scaled⌋
  let r : ℤ :=
    if scaled - f < 1 / 2 then f
    else if scaled - f > 1 / 2 then f + 1
    else if f % 2 = 0 then f else f + 1
  (r : ℚ) / 100

/-- The running accumulator of `get_bucket_metrics` (lines 141-145):
`total_size_bytes`, `total_objects`, `objects_list`,
`size_distribution`, `storage_class_distribution`. -/
structure ScanState where
  total_size_bytes : Nat
  total_objects : Nat
  objects_list : List ObjectRecord
  size_distribution : List (String × Nat)
  storage_class_distribution : List (String × Nat)
deriving DecidableEq

/-- The accumulator's initial value. -/
def initState : ScanState :=
  { total_size_bytes := 0
    total_objects := 0
    objects_list := []
    size_distribution := []
    storage_class_distribution := [] }

/-- Python `obj['Key'].endswith('/')` (line 156): true exactly when the
key's final character is the path separator. -/
def endsWithSlash (key : String) : Bool :=
  key.data.getLast? = some '/'

/-- The body of the inner `for obj in page['Contents']` loop (lines
155-188): skip zero-byte keys ending in `'/'`, otherwise accumulate
totals, both distributions, and append one normalized record. -/
def processObject (s : ScanState) (obj : S3Object) : ScanState :=
  if obj.size = 0 ∧ endsWithSlash obj.key then s
  else
    let size_bytes := obj.size
    let size_mb := bytesToMB size_bytes
    let storage_class := obj.storageClass.getD "STANDARD"
    { total_size_bytes := s.total_size_bytes + size_bytes
      total_objects := s.total_objects + 1
      objects_list := s.objects_list ++
        [{ key := obj.key
           size_MB := round2 size_mb
           last_modified := lastModifiedStr obj.lastModified
           storage_class := storage_class }]
      size_distribution := incr s.size_distribution (_get_size_category size_mb)
      storage_class_distribution := incr s.storage_class_distribution storage_class }

/-- One iteration of `for page in pages` (lines 152-188): a page without
`'Contents'` contributes nothing. -/
def processPage (s : ScanState) (p : Page) : ScanState :=
  match p.contents with
  | none => s
  | some objs => objs.foldl processObject s

/-- The whole pagination loop of `get_bucket_metrics`, starting from the
zeroed accumulator. -/
def scanPages (pages : List Page) : ScanState :=
  pages.foldl processPage initState

/-- The dict returned by `get_bucket_metrics` on success (lines 199-206). -/
structure Metrics where
  total_size_mb : ℚ
  total_objects : Nat
  average_size_mb : ℚ
  size_distribution : List (String × Nat)
  storage_class_distribution : List (String × Nat)
  objects : List ObjectRecord
deriving DecidableEq

/-- Final assembly of the result dict from the accumulator (lines
192-206): `total_size_mb`, `average_size_mb` (0 when no objects), both
rounded to two decimals. -/
def computeMetrics (pages : List Page) : Metrics :=
  let s := scanPages pages
  let total_size_mb := bytesToMB s.total_size_bytes
  let average_size_mb := if s.total_objects > 0 then total_size_mb / s.total_objects else 0
  { total_size_mb := round2 total_size_mb
    total_objects := s.total_objects
    average_size_mb := round2 average_size_mb
    size_distribution := s.size_distribution
    storage_class_distribution := s.storage_class_distribution
    objects := s.objects_list }

/-- Errors the backend can raise during pagination, mirroring the
`ClientError` codes `get_bucket_metrics` distinguishes plus the generic
`except Exception` arm (lines 208-224); all of them make the function
return `None`. -/
inductive ScanError where
  | noSuchBucket
  | accessDenied
  | invalidBucketName
  | otherClient (code : String)
  | unexpected
deriving DecidableEq

/-- The analyzer's mutable state relevant to the scan path: the backend
listing (the boto3 paginator, as an external collaborator: for a bucket
and prefix it yields the full page sequence or fails) and the in-memory
cache `self.cache`, a dict keyed by the string `f"{bucket}::{prefix}"`. -/
structure Analyzer where
  backend : String → String → Except ScanError (List Page)
  cache : List (String × Metrics)

/-- `self.cache[k]` lookup (`k in self.cache` is `isSome` of this). -/
def cacheLookup (c : List (String × Metrics)) (k : String) : Option Metrics :=
  match c with
  | [] => none
  | (k₀, v) :: rest => if k₀ = k then some v else cacheLookup rest k

/-- `self.cache[k] = v`: overwrite in place, or append when the key is
new. -/
def cacheInsert (c : List (String × Metrics)) (k : String) (v : Metrics) :
    List (String × Metrics) :=
  match c with
  | [] => [(k, v)]
  | (k₀, v₀) :: rest =>
    if k₀ = k then (k₀, v) :: rest else (k₀, v₀) :: cacheInsert rest k v

/-- `S3Analyzer.get_bucket_metrics` (lines 121-224) with the client
already initialized (§6 of the spec: a valid backend handle exists by the
time a scan runs): run the paginator and aggregate, or return `None` when
the backend raises. -/
def get_bucket_metrics (a : Analyzer) (bucket_name pfx : String) : Option Metrics :=
  match a.backend bucket_name pfx with
  | .error _ => none
  | .ok pages => some (computeMetrics pages)

/-- The outcome of one `analyze_bucket` call: the returned value, the
cache afterwards, and how many times the backend listing was invoked
(0 or 1). -/
structure AnalyzeOutcome where
  result : Option Metrics
  cache : List (String × Metrics)
  backendCalls : Nat
deriving Inhabited

/-- `S3Analyzer.analyze_bucket` (lines 226-257).  An empty bucket name is
rejected before anything else happens (the non-string cases of the Python
guards are unrepresentable here).  With `use_cache` and a cache hit the
stored dict is returned as is; otherwise `get_bucket_metrics` runs, and
its result is written back to the cache only when it is not `None` AND
`use_cache` is true. -/
def analyze_bucket (a : Analyzer) (bucket_name pfx : String) (use_cache : Bool) :
    AnalyzeOutcome :=
  if bucket_name = "" then ⟨none, a.cache, 0⟩
  else
    let cache_key := bucket_name ++ "::" ++ pfx
    if use_cache = true ∧ (cacheLookup a.cache cache_key).isSome then
      ⟨cacheLookup a.cache cache_key, a.cache, 0⟩
    else
      match get_bucket_metrics a bucket_name pfx with
      | some results =>
        if use_cache then ⟨some results, cacheInsert a.cache cache_key results, 1⟩
        else ⟨some results, a.cache, 1⟩
      | none => ⟨none, a.cache, 1⟩

/-- Modelled from the spec: `average_size_bytes` of §3 of the
specification (`total_size_bytes / total_objects`, defined as 0 when
`total_objects = 0`).  The code itself only returns the MB-denominated
rounded `average_size_mb`; this derived byte-denominated view exists to
state the spec's scenario claim about the average. -/
def spec_average_size_bytes (s : ScanState) : ℚ :=
  if s.total_objects = 0 then 0
  else (s.total_size_bytes : ℚ) / (s.total_objects : ℚ)

-- Comparison between the MB value of a byte count and an integer
-- threshold, transported to the byte counts themselves.
lemma bytesToMB_lt_iff (n k : Nat) : bytesToMB n < (k : ℚ) ↔ n < k * 1048576 := by
  unfold bytesToMB
  rw [div_lt_iff₀ (by norm_num : (0 : ℚ) < 1024 * 1024)]
  have hcast : (k : ℚ) * (1024 * 1024) = ((k * 1048576 : Nat) : ℚ) := by push_cast; ring
  rw [hcast, Nat.cast_lt]

-- The categorization rephrased over the raw byte count: since division by
-- 2 ^ 20 is order-preserving, the three MB thresholds correspond to the
-- byte thresholds 1048576, 10485760 and 104857600.
lemma categorize_eq_nat (n : Nat) :
    categorize n =
      if n < 1048576 then "Small (<1MB)"
      else if n < 10485760 then "Medium (1-10MB)"
      else if n < 104857600 then "Large (10-100MB)"
      else "Very Large (>100MB)" := by
  have h1 := bytesToMB_lt_iff n 1
  have h10 := bytesToMB_lt_iff n 10
  have h100 := bytesToMB_lt_iff n 100
  norm_num at h1 h10 h100
  unfold categorize _get_size_category
  by_cases c1 : n < 1048576
  · rw [if_pos (h1.mpr c1), if_pos c1]
  · rw [if_neg (fun hq => c1 (h1.mp hq)), if_neg c1]
    by_cases c10 : n < 10485760
    · rw [if_pos (h10.mpr c10), if_pos c10]
    · rw [if_neg (fun hq => c10 (h10.mp hq)), if_neg c10]
      by_cases c100 : n < 104857600
      · rw [if_pos (h100.mpr c100), if_pos c100]
      · rw [if_neg (fun hq => c100 (h100.mp hq)), if_neg c100]

/-- C2: `categorize` places every non-negative byte count in exactly one
of the four fixed bins, with first-match-wins precedence on
`size_bytes / 1048576`: below 1 MB is Small, below 10 MB Medium, below
100 MB Large, else Very Large; the 1 MB boundary itself is Medium, not
Small. -/
theorem categorize_partition (n : Nat) :
    (categorize n = "Small (<1MB)" ↔ n < 1048576) ∧
    (categorize n = "Medium (1-10MB)" ↔ 1048576 ≤ n ∧ n < 10485760) ∧
    (categorize n = "Large (10-100MB)" ↔ 10485760 ≤ n ∧ n < 104857600) ∧
    (categorize n = "Very Large (>100MB)" ↔ 104857600 ≤ n) ∧
    categorize 1048576 = "Medium (1-10MB)" := by
  rw [categorize_eq_nat, categorize_eq_nat]
  refine ⟨?_, ?_, ?_, ?_, by norm_num⟩ <;>
    by_cases c1 : n < 1048576 <;>
    by_cases c10 : n < 10485760 <;>
    by_cases c100 : n < 104857600 <;>
    simp [c1, c10, c100] <;> omega

-- `lastModifiedStr` is constantly `"N/A"`: both the absent case and the
-- present case (where the `NameError` is swallowed) keep the initial value.
lemma lastModifiedStr_eq (lm : Option Nat) : lastModifiedStr lm = "N/A" := by
  cases lm <;> rfl

-- Bumping a counter dict raises the sum of its values by exactly one.
lemma sumValues_incr (d : List (String × Nat)) (k : String) :
    sumValues (incr d k) = sumValues d + 1 := by
  induction d with
  | nil => simp [incr, sumValues]
  | cons hd tl ih =>
    obtain ⟨k₀, v⟩ := hd
    by_cases h : k₀ = k
    · simp [incr, h, sumValues]
      omega
    · simp [incr, h, sumValues] at ih ⊢
      omega

-- The two branches of the inner loop body, spelled out.
lemma processObject_skip (s : ScanState) (o : S3Object)
    (h : o.size = 0 ∧ endsWithSlash o.key = true) :
    processObject s o = s := by
  unfold processObject
  rw [if_pos h]

lemma processObject_retained (s : ScanState) (o : S3Object)
    (h : ¬(o.size = 0 ∧ endsWithSlash o.key = true)) :
    processObject s o =
      { total_size_bytes := s.total_size_bytes + o.size
        total_objects := s.total_objects + 1
        objects_list := s.objects_list ++
          [{ key := o.key
             size_MB := round2 (bytesToMB o.size)
             last_modified := lastModifiedStr o.lastModified
             storage_class := o.storageClass.getD "STANDARD" }]
        size_distribution := incr s.size_distribution (_get_size_category (bytesToMB o.size))
        storage_class_distribution :=
          incr s.storage_class_distribution (o.storageClass.getD "STANDARD") } := by
  unfold processObject
  rw [if_neg h]

/-- The counting invariant of the running accumulator: the object count,
the length of the record list, and the value sums of both distribution
dicts all agree. -/
def stateInv (s : ScanState) : Prop :=
  s.total_objects = s.objects_list.length ∧
  s.total_objects = sumValues s.size_distribution ∧
  s.total_objects = sumValues s.storage_class_distribution

lemma processObject_inv (s : ScanState) (o : S3Object) (h : stateInv s) :
    stateInv (processObject s o) := by
  by_cases hc : o.size = 0 ∧ endsWithSlash o.key = true
  · rw [processObject_skip s o hc]; exact h
  · obtain ⟨h1, h2, h3⟩ := h
    rw [processObject_retained s o hc]
    refine ⟨?_, ?_, ?_⟩ <;> simp [sumValues_incr] <;> omega

lemma foldl_processObject_inv (objs : List S3Object) (s : ScanState) (h : stateInv s) :
    stateInv (objs.foldl processObject s) := by
  induction objs generalizing s with
  | nil => exact h
  | cons o rest ih => exact ih _ (processObject_inv s o h)

lemma processPage_inv (s : ScanState) (p : Page) (h : stateInv s) :
    stateInv (processPage s p) := by
  unfold processPage
  cases p.contents with
  | none => exact h
  | some objs => exact foldl_processObject_inv objs s h

lemma foldl_processPage_inv (pages : List Page) (s : ScanState) (h : stateInv s) :
    stateInv (pages.foldl processPage s) := by
  induction pages generalizing s with
  | nil => exact h
  | cons p rest ih => exact ih _ (processPage_inv s p h)

lemma scanPages_inv (pages : List Page) : stateInv (scanPages pages) :=
  foldl_processPage_inv pages initState ⟨rfl, rfl, rfl⟩

/-- C1: every successfully completed scan satisfies
`total_objects = len(objects) = sum(size_distribution.values()) =
sum(storage_class_distribution.values())`: each retained descriptor
increments the count, appends exactly one record, and adds one to exactly
one bin of each distribution. -/
theorem scan_result_count_invariant (pages : List Page) :
    (computeMetrics pages).total_objects = (computeMetrics pages).objects.length ∧
    (computeMetrics pages).total_objects =
      sumValues (computeMetrics pages).size_distribution ∧
    (computeMetrics pages).total_objects =
      sumValues (computeMetrics pages).storage_class_distribution := by
  obtain ⟨h1, h2, h3⟩ := scanPages_inv pages
  exact ⟨h1, h2, h3⟩

/-- C6: an entry with size 0 whose key ends in `/` is excluded entirely
(no contribution to the total size, the count, either distribution, or
the record list); any other entry—size 0 without the trailing separator,
or trailing separator with nonzero size—is retained and contributes
exactly once everywhere. -/
theorem folder_placeholder_exclusion (s : ScanState) (o : S3Object) :
    (o.size = 0 ∧ endsWithSlash o.key = true → processObject s o = s) ∧
    (¬(o.size = 0 ∧ endsWithSlash o.key = true) →
      (processObject s o).total_size_bytes = s.total_size_bytes + o.size ∧
      (processObject s o).total_objects = s.total_objects + 1 ∧
      (processObject s o).objects_list.length = s.objects_list.length + 1 ∧
      sumValues (processObject s o).size_distribution =
        sumValues s.size_distribution + 1 ∧
      sumValues (processObject s o).storage_class_distribution =
        sumValues s.storage_class_distribution + 1) := by
  constructor
  · intro h
    exact processObject_skip s o h
  · intro h
    rw [processObject_retained s o h]
    refine ⟨rfl, rfl, ?_, sumValues_incr _ _, sumValues_incr _ _⟩
    simp

/-- Witness for C6: the spec's scenario object `key = "folder/"`, size 0
is dropped, while a 512000-byte object is retained and counted once. -/
theorem folder_placeholder_exclusion_witness :
    processObject initState ⟨"folder/", 0, none, none⟩ = initState ∧
    (processObject initState ⟨"data.bin", 512000, none, none⟩).total_objects =
      initState.total_objects + 1 :=
  ⟨(folder_placeholder_exclusion initState ⟨"folder/", 0, none, none⟩).1 (by decide),
   ((folder_placeholder_exclusion initState ⟨"data.bin", 512000, none, none⟩).2
      (by decide)).2.1⟩

/-- C10: every retained object's emitted record carries
`'Last Modified' = "N/A"` no matter what `LastModified` value the backend
supplied: `datetime` is not imported in the module, so the `isinstance`
test raises `NameError`, the generic handler swallows it, and the
formatting branch never runs. -/
theorem last_modified_always_na (s : ScanState) (o : S3Object)
    (h : ¬(o.size = 0 ∧ endsWithSlash o.key = true)) :
    (processObject s o).objects_list =
      s.objects_list ++
        [{ key := o.key
           size_MB := round2 (bytesToMB o.size)
           last_modified := "N/A"
           storage_class := o.storageClass.getD "STANDARD" }] := by
  rw [processObject_retained s o h, lastModifiedStr_eq]

/-- Witness for C10: a perfectly well-formed timestamp (`some 1700000000`)
still yields `"N/A"` in the record. -/
theorem last_modified_always_na_witness :
    (processObject initState ⟨"k", 7, some "GLACIER", some 1700000000⟩).objects_list =
      initState.objects_list ++
        [{ key := "k"
           size_MB := round2 (bytesToMB 7)
           last_modified := "N/A"
           storage_class := (some "GLACIER").getD "STANDARD" }] :=
  last_modified_always_na initState ⟨"k", 7, some "GLACIER", some 1700000000⟩ (by decide)

/-- Counterexample to C8 as stated: a retained object whose
`LastModified` is absent gets the sentinel `"N/A"` in its record, which
is not the claimed `"unknown"`. -/
theorem absent_timestamp_sentinel_counterexample :
    (processObject initState ⟨"k", 5, none, none⟩).objects_list.map
        ObjectRecord.last_modified = ["N/A"] ∧
    ¬ (processObject initState ⟨"k", 5, none, none⟩).objects_list.map
        ObjectRecord.last_modified = ["unknown"] := by
  rw [processObject_retained initState ⟨"k", 5, none, none⟩ (by decide)]
  constructor <;> simp [initState, lastModifiedStr]

/-- C8 (amended): an object descriptor whose `LastModified` is absent or
malformed (given the dead `datetime` branch, every present value is
unformattable) does not abort the scan: its record is emitted with the
`"N/A"` sentinel—not `"unknown"`—in the last-modified field, and every
other field and aggregate is computed normally.  No restriction on
`o.lastModified` is needed: the conclusion holds for every value. -/
theorem absent_timestamp_tolerated (s : ScanState) (o : S3Object)
    (h : ¬(o.size = 0 ∧ endsWithSlash o.key = true)) :
    (processObject s o).objects_list =
      s.objects_list ++
        [{ key := o.key
           size_MB := round2 (bytesToMB o.size)
           last_modified := "N/A"
           storage_class := o.storageClass.getD "STANDARD" }] ∧
    (processObject s o).total_objects = s.total_objects + 1 ∧
    (processObject s o).total_size_bytes = s.total_size_bytes + o.size ∧
    sumValues (processObject s o).size_distribution =
      sumValues s.size_distribution + 1 ∧
    sumValues (processObject s o).storage_class_distribution =
      sumValues s.storage_class_distribution + 1 := by
  rw [processObject_retained s o h, lastModifiedStr_eq]
  exact ⟨rfl, rfl, rfl, sumValues_incr _ _, sumValues_incr _ _⟩

/-- Witness for the amended C8 at a concrete object carrying a present
(hence, in this module, unformattable) timestamp. -/
theorem absent_timestamp_tolerated_witness :
    (processObject initState ⟨"a.txt", 3, none, some 42⟩).objects_list =
      initState.objects_list ++
        [{ key := "a.txt"
           size_MB := round2 (bytesToMB 3)
           last_modified := "N/A"
           storage_class := (none : Option String).getD "STANDARD" }] ∧
    (processObject initState ⟨"a.txt", 3, none, some 42⟩).total_objects =
      initState.total_objects + 1 ∧
    (processObject initState ⟨"a.txt", 3, none, some 42⟩).total_size_bytes =
      initState.total_size_bytes + 3 ∧
    sumValues (processObject initState ⟨"a.txt", 3, none, some 42⟩).size_distribution =
      sumValues initState.size_distribution + 1 ∧
    sumValues (processObject initState ⟨"a.txt", 3, none, some 42⟩).storage_class_distribution =
      sumValues initState.storage_class_distribution + 1 :=
  absent_timestamp_tolerated initState ⟨"a.txt", 3, none, some 42⟩ (by decide)

/-- The spec's two-page scenario (§8): page 1 holds one 512000-byte
STANDARD object, page 2 one 150000000-byte GLACIER object. -/
def c4Pages : List Page :=
  [⟨some [⟨"obj1", 512000, some "STANDARD", none⟩]⟩,
   ⟨some [⟨"obj2", 150000000, some "GLACIER", none⟩]⟩]

-- The accumulator the scenario produces, computed once and shared by the
-- two theorems about it.
lemma c4_scanPages_eq :
    scanPages c4Pages =
      { total_size_bytes := 150512000
        total_objects := 2
        objects_list :=
          [{ key := "obj1", size_MB := round2 (bytesToMB 512000),
             last_modified := "N/A", storage_class := "STANDARD" },
           { key := "obj2", size_MB := round2 (bytesToMB 150000000),
             last_modified := "N/A", storage_class := "GLACIER" }]
        size_distribution := [("Small (<1MB)", 1), ("Very Large (>100MB)", 1)]
        storage_class_distribution := [("STANDARD", 1), ("GLACIER", 1)] } := by
  have hs : _get_size_category (bytesToMB 512000) = "Small (<1MB)" := by
    have h := categorize_eq_nat 512000
    norm_num [categorize] at h
    exact h
  have hv : _get_size_category (bytesToMB 150000000) = "Very Large (>100MB)" := by
    have h := categorize_eq_nat 150000000
    norm_num [categorize] at h
    exact h
  have hstep : scanPages c4Pages =
      processObject (processObject initState ⟨"obj1", 512000, some "STANDARD", none⟩)
        ⟨"obj2", 150000000, some "GLACIER", none⟩ := by
    simp [scanPages, c4Pages, processPage]
  rw [hstep,
    processObject_retained (processObject initState ⟨"obj1", 512000, some "STANDARD", none⟩)
      ⟨"obj2", 150000000, some "GLACIER", none⟩ (by decide),
    processObject_retained initState ⟨"obj1", 512000, some "STANDARD", none⟩ (by decide)]
  simp [initState, incr, hs, hv, lastModifiedStr]

/-- Counterexample to C4 as stated: at the scenario input the average
object size is (512000 + 150000000) / 2 = 75256000 bytes, not the claimed
75256250. -/
theorem scenario_average_counterexample :
    spec_average_size_bytes (scanPages c4Pages) ≠ 75256250 := by
  rw [c4_scanPages_eq]
  simp [spec_average_size_bytes]
  norm_num

/-- C4 (amended): the scenario yields total_objects = 2, one object in
the Small bin and one in the Very Large bin, one STANDARD and one
GLACIER, and an average object size of 75256000 bytes. -/
theorem scenario_two_pages :
    (computeMetrics c4Pages).total_objects = 2 ∧
    (computeMetrics c4Pages).size_distribution =
      [("Small (<1MB)", 1), ("Very Large (>100MB)", 1)] ∧
    (computeMetrics c4Pages).storage_class_distribution =
      [("STANDARD", 1), ("GLACIER", 1)] ∧
    spec_average_size_bytes (scanPages c4Pages) = 75256000 := by
  refine ⟨?_, ?_, ?_, ?_⟩ <;>
    simp [computeMetrics, c4_scanPages_eq, spec_average_size_bytes] <;> norm_num

-- Looking up a key right after storing under it yields the stored value.
lemma cacheLookup_insert (c : List (String × Metrics)) (k : String) (v : Metrics) :
    cacheLookup (cacheInsert c k v) k = some v := by
  induction c with
  | nil => simp [cacheInsert, cacheLookup]
  | cons hd tl ih =>
    obtain ⟨k₀, v₀⟩ := hd
    by_cases h : k₀ = k <;> simp [cacheInsert, cacheLookup, h, ih]

/-- Counterexample to C3 as stated: with `use_cache=false` the backend is
re-invoked and a fresh result (one object, not zero) is returned, but the
cache entry under the key still holds the stale result — the claimed
refresh never happens, because the write-back is guarded by `use_cache`. -/
theorem no_cache_refresh_counterexample :
    (analyze_bucket
        { backend := fun _ _ => .ok [⟨some [⟨"k", 1, none, none⟩]⟩]
          cache := [("b::", computeMetrics [])] } "b" "" false).backendCalls = 1 ∧
    (analyze_bucket
        { backend := fun _ _ => .ok [⟨some [⟨"k", 1, none, none⟩]⟩]
          cache := [("b::", computeMetrics [])] } "b" "" false).result =
      some (computeMetrics [⟨some [⟨"k", 1, none, none⟩]⟩]) ∧
    cacheLookup (analyze_bucket
        { backend := fun _ _ => .ok [⟨some [⟨"k", 1, none, none⟩]⟩]
          cache := [("b::", computeMetrics [])] } "b" "" false).cache "b::" =
      some (computeMetrics []) ∧
    computeMetrics [] ≠ computeMetrics [⟨some [⟨"k", 1, none, none⟩]⟩] := by
  refine ⟨?_, ?_, ?_, ?_⟩
  · simp [analyze_bucket, get_bucket_metrics]
  · simp [analyze_bucket, get_bucket_metrics]
  · simp [analyze_bucket, get_bucket_metrics, cacheLookup]
  · intro h
    have hto := congrArg Metrics.total_objects h
    simp [computeMetrics, scanPages, processPage, processObject, endsWithSlash,
      initState] at hto

/-- C3 (amended): `analyze` with `use_cache=false` always re-invokes the
backend listing even when a cache entry for the key exists, but it never
writes the cache: the cache is identical before and after the call (the
stale entry is NOT refreshed). -/
theorem no_cache_bypasses_but_never_writes (a : Analyzer) (bucket pfx : String)
    (hb : bucket ≠ "") :
    (analyze_bucket a bucket pfx false).backendCalls = 1 ∧
    (analyze_bucket a bucket pfx false).cache = a.cache := by
  unfold analyze_bucket
  rw [if_neg hb]
  cases hgm : get_bucket_metrics a bucket pfx <;> simp [hgm]

/-- Witness for the amended C3 at a concrete analyzer with a pre-existing
entry under the queried key. -/
theorem no_cache_bypasses_but_never_writes_witness :
    (analyze_bucket
        { backend := fun _ _ => .ok []
          cache := [("b::p", computeMetrics [])] } "b" "p" false).backendCalls = 1 ∧
    (analyze_bucket
        { backend := fun _ _ => .ok []
          cache := [("b::p", computeMetrics [])] } "b" "p" false).cache =
      ({ backend := fun _ _ => .ok []
         cache := [("b::p", computeMetrics [])] } : Analyzer).cache :=
  no_cache_bypasses_but_never_writes
    { backend := fun _ _ => .ok []
      cache := [("b::p", computeMetrics [])] } "b" "p" (by decide)

/-- C5: when the backend listing fails during pagination, the call
returns no result, the cache is untouched, and a retry with
`use_cache=true` re-attempts the scan (the backend is invoked again)
instead of serving a cached failure. -/
theorem backend_failure_aborts_without_caching (a : Analyzer) (bucket pfx : String)
    (uc : Bool) (e : ScanError) (hb : bucket ≠ "")
    (he : a.backend bucket pfx = .error e)
    (hmiss : cacheLookup a.cache (bucket ++ "::" ++ pfx) = none) :
    (analyze_bucket a bucket pfx uc).result = none ∧
    (analyze_bucket a bucket pfx uc).cache = a.cache ∧
    (analyze_bucket { a with cache := (analyze_bucket a bucket pfx uc).cache }
        bucket pfx true).backendCalls = 1 := by
  have h1 : analyze_bucket a bucket pfx uc = ⟨none, a.cache, 1⟩ := by
    unfold analyze_bucket
    rw [if_neg hb]
    simp [hmiss, get_bucket_metrics, he]
  have h2 : analyze_bucket { a with cache := a.cache } bucket pfx true =
      ⟨none, a.cache, 1⟩ := by
    unfold analyze_bucket
    rw [if_neg hb]
    simp [hmiss, get_bucket_metrics, he]
  rw [h1]
  exact ⟨rfl, rfl, by rw [h2]⟩

/-- Witness for C5: a backend that denies access on page one. -/
theorem backend_failure_aborts_without_caching_witness :
    (analyze_bucket
        { backend := fun _ _ => .error .accessDenied, cache := [] }
        "b" "" true).result = none ∧
    (analyze_bucket
        { backend := fun _ _ => .error .accessDenied, cache := [] }
        "b" "" true).cache =
      ({ backend := fun _ _ => .error .accessDenied, cache := [] } : Analyzer).cache ∧
    (analyze_bucket
        { ({ backend := fun _ _ => .error .accessDenied, cache := [] } : Analyzer) with
          cache := (analyze_bucket
            ({ backend := fun _ _ => .error .accessDenied, cache := [] } : Analyzer)
            "b" "" true).cache }
        "b" "" true).backendCalls = 1 :=
  backend_failure_aborts_without_caching
    { backend := fun _ _ => .error .accessDenied, cache := [] } "b" "" true
    .accessDenied (by decide) rfl rfl

/-- C7: starting with no entry under the key and a succeeding backend,
two `analyze(bucket, prefix, use_cache=true)` calls in a row invoke the
backend listing exactly once in total: the first call scans and stores,
the second is served from the cache with the very same value (and no
freshness check: nothing but the key is consulted). -/
theorem cached_second_call_no_backend (a : Analyzer) (bucket pfx : String)
    (pages : List Page) (hb : bucket ≠ "")
    (hok : a.backend bucket pfx = .ok pages)
    (hmiss : cacheLookup a.cache (bucket ++ "::" ++ pfx) = none) :
    (analyze_bucket a bucket pfx true).backendCalls = 1 ∧
    (analyze_bucket { a with cache := (analyze_bucket a bucket pfx true).cache }
        bucket pfx true).backendCalls = 0 ∧
    (analyze_bucket { a with cache := (analyze_bucket a bucket pfx true).cache }
        bucket pfx true).result = (analyze_bucket a bucket pfx true).result ∧
    (analyze_bucket a bucket pfx true).result = some (computeMetrics pages) := by
  have h1 : analyze_bucket a bucket pfx true =
      ⟨some (computeMetrics pages),
        cacheInsert a.cache (bucket ++ "::" ++ pfx) (computeMetrics pages), 1⟩ := by
    unfold analyze_bucket
    rw [if_neg hb]
    simp [hmiss, get_bucket_metrics, hok]
  have h2 : analyze_bucket
      { a with cache := cacheInsert a.cache (bucket ++ "::" ++ pfx) (computeMetrics pages) }
      bucket pfx true =
      ⟨some (computeMetrics pages),
        cacheInsert a.cache (bucket ++ "::" ++ pfx) (computeMetrics pages), 0⟩ := by
    unfold analyze_bucket
    rw [if_neg hb]
    simp [cacheLookup_insert]
  rw [h1]
  exact ⟨rfl, by rw [h2], by rw [h2], rfl⟩

/-- Witness for C7 at a concrete analyzer with an empty cache. -/
theorem cached_second_call_no_backend_witness :
    (analyze_bucket ({ backend := fun _ _ => .ok [], cache := [] } : Analyzer)
        "b" "p" true).backendCalls = 1 ∧
    (analyze_bucket
        { ({ backend := fun _ _ => .ok [], cache := [] } : Analyzer) with
          cache := (analyze_bucket
            ({ backend := fun _ _ => .ok [], cache := [] } : Analyzer)
            "b" "p" true).cache }
        "b" "p" true).backendCalls = 0 ∧
    (analyze_bucket
        { ({ backend := fun _ _ => .ok [], cache := [] } : Analyzer) with
          cache := (analyze_bucket
            ({ backend := fun _ _ => .ok [], cache := [] } : Analyzer)
            "b" "p" true).cache }
        "b" "p" true).result =
      (analyze_bucket ({ backend := fun _ _ => .ok [], cache := [] } : Analyzer)
        "b" "p" true).result ∧
    (analyze_bucket ({ backend := fun _ _ => .ok [], cache := [] } : Analyzer)
        "b" "p" true).result = some (computeMetrics []) :=
  cached_second_call_no_backend
    { backend := fun _ _ => .ok [], cache := [] } "b" "p" [] (by decide) rfl rfl

/-- C9: the cache key is the bare concatenation
`bucket_name ++ "::" ++ prefix`, so the distinct pairs ("a", "b::c") and
("a::b", "c") share the key "a::b::c"; after a successful cached analyze
of the first pair, analyzing the second pair with `use_cache=true`
returns the first pair's cached result without invoking the backend. -/
theorem cache_key_collision (a : Analyzer) (pages : List Page)
    (hok : a.backend "a" "b::c" = .ok pages)
    (hmiss : cacheLookup a.cache "a::b::c" = none) :
    ("a" ++ "::" ++ "b::c" : String) = "a::b" ++ "::" ++ "c" ∧
    (analyze_bucket { a with cache := (analyze_bucket a "a" "b::c" true).cache }
        "a::b" "c" true).backendCalls = 0 ∧
    (analyze_bucket { a with cache := (analyze_bucket a "a" "b::c" true).cache }
        "a::b" "c" true).result = (analyze_bucket a "a" "b::c" true).result := by
  have hk1 : ("a" ++ "::" ++ "b::c" : String) = "a::b::c" := rfl
  have hk2 : ("a::b" ++ "::" ++ "c" : String) = "a::b::c" := rfl
  have h1 : analyze_bucket a "a" "b::c" true =
      ⟨some (computeMetrics pages), cacheInsert a.cache "a::b::c" (computeMetrics pages),
        1⟩ := by
    unfold analyze_bucket
    rw [if_neg (by decide), hk1]
    simp [hmiss, get_bucket_metrics, hok]
  have h2 : analyze_bucket
      { a with cache := cacheInsert a.cache "a::b::c" (computeMetrics pages) }
      "a::b" "c" true =
      ⟨some (computeMetrics pages), cacheInsert a.cache "a::b::c" (computeMetrics pages),
        0⟩ := by
    unfold analyze_bucket
    rw [if_neg (by decide), hk2]
    simp [cacheLookup_insert]
  rw [h1]
  exact ⟨rfl, by rw [h2], by rw [h2]⟩

/-- Witness for C9 at a concrete analyzer with an empty cache. -/
theorem cache_key_collision_witness :
    ("a" ++ "::" ++ "b::c" : String) = "a::b" ++ "::" ++ "c" ∧
    (analyze_bucket
        { ({ backend := fun _ _ => .ok [], cache := [] } : Analyzer) with
          cache := (analyze_bucket
            ({ backend := fun _ _ => .ok [], cache := [] } : Analyzer)
            "a" "b::c" true).cache }
        "a::b" "c" true).backendCalls = 0 ∧
    (analyze_bucket
        { ({ backend := fun _ _ => .ok [], cache := [] } : Analyzer) with
          cache := (analyze_bucket
            ({ backend := fun _ _ => .ok [], cache := [] } : Analyzer)
            "a" "b::c" true).cache }
        "a::b" "c" true).result =
      (analyze_bucket ({ backend := fun _ _ => .ok [], cache := [] } : Analyzer)
        "a" "b::c" true).result :=
  cache_key_collision
    { backend := fun _ _ => .ok [], cache := [] } [] rfl rfl
